import Mathlib

/-!
# Verification of the Enterprise Data Evaluation Framework core

A shallow embedding of the EDET pipeline (five layer evaluators over a
tabular dataset profile plus the strategic trust aggregator) with proofs
about the claims of the specification.

Modelling conventions:
* Tables are lists of named, dtype-tagged columns of optional cell values
  (`Value.null` models a pandas missing value / `NaN`).
* Python floats are modelled by exact rationals; `round(x, 4)` is modelled
  by round-half-to-even at four decimals (`round4`).
* Timestamps are rationals measured in days, so lag and gap arithmetic
  translate directly.
* Library-computed statistics that have no tractable closed form
  (regex matching of PII patterns, `pd.to_datetime` string parsing,
  Python `float()` parse acceptance, Shannon-entropy diversity, VIF
  regressions, IsolationForest anomaly density) are abstracted as an
  `Oracles` parameter; every theorem quantifies over those oracles, so the
  proved properties hold for any behaviour of those library routines.
  Statistics with a closed rational form (means, variances, skewness and
  Pearson-correlation threshold tests, medians) are computed exactly.
-/

namespace EDET

/-- A single cell of a table: missing, numeric, or textual. -/
inductive Value where
  | null : Value
  | num : ℚ → Value
  | str : String → Value
  deriving DecidableEq

/-- Declared column dtype, mirroring the pandas dtypes the source inspects
(`int*`, `float*`, `object`/`string`, `datetime64`). -/
inductive Dtype where
  | intLike : Dtype
  | floatLike : Dtype
  | objectLike : Dtype
  | datetimeLike : Dtype
  deriving DecidableEq

/-- A named column with dtype and cell values. -/
structure Column where
  name : String
  dtype : Dtype
  values : List Value
  deriving DecidableEq

/-- A table: row count plus columns (mirrors `pd.DataFrame`). -/
structure Table where
  nRows : ℕ
  cols : List Column
  deriving DecidableEq

/-- Well-formedness: the table is rectangular. -/
def Table.WF (t : Table) : Prop := ∀ c ∈ t.cols, c.values.length = t.nRows

instance (t : Table) : Decidable t.WF := by
  unfold Table.WF; infer_instance

/-- `InputMetadata` of the input layer (ingestion-time facts). -/
structure InputMetadata where
  file_type : String
  record_count : ℕ
  column_count : ℕ
  data_types : List (String × String)
  has_timestamp : Bool
  has_text : Bool
  numeric_density : ℚ
  column_names : List String
  deriving DecidableEq

/-- `DatasetProfile`: raw table, metadata, optional normalized working view. -/
structure DatasetProfile where
  raw : Table
  metadata : InputMetadata
  working_df : Option Table
  deriving DecidableEq

/-- `DatasetProfile.df`: the working view when present, else the raw table. -/
def DatasetProfile.df (p : DatasetProfile) : Table :=
  match p.working_df with
  | some w => w
  | none => p.raw

/-! ## Numeric helpers: clamping and Python-style rounding -/

/-- Clamp a rational to the unit interval. -/
def clamp01 (x : ℚ) : ℚ := max 0 (min 1 x)

/-- Round half to even to the nearest integer (Python `round` semantics). -/
def rhe (x : ℚ) : ℤ :=
  if x - ⌊x⌋ < 1/2 then ⌊x⌋
  else if 1/2 < x - ⌊x⌋ then ⌊x⌋ + 1
  else if ⌊x⌋ % 2 = 0 then ⌊x⌋ else ⌊x⌋ + 1

/-- Python `round(x, 4)` on exact rationals. -/
def round4 (x : ℚ) : ℚ := (rhe (x * 10000) : ℚ) / 10000

/-- Python `round(x, 2)` on exact rationals. -/
def round2 (x : ℚ) : ℚ := (rhe (x * 100) : ℚ) / 100

/-! ## List helpers -/

/-- Deduplicate keeping first occurrences (Python `dict.fromkeys` order). -/
def dedupFirst {α : Type} [DecidableEq α] (l : List α) : List α :=
  l.foldl (fun acc a => if a ∈ acc then acc else acc ++ [a]) []

/-- Insert into a sorted list of rationals. -/
def insertSorted (x : ℚ) : List ℚ → List ℚ
  | [] => [x]
  | y :: ys => if x ≤ y then x :: y :: ys else y :: insertSorted x ys

/-- Sort a list of rationals ascending (`Series.sort_values`). -/
def sortQ (l : List ℚ) : List ℚ := l.foldr insertSorted []

/-- Median of a list of rationals (pandas `Series.median`). -/
def medianQ (l : List ℚ) : ℚ :=
  let s := sortQ l
  let n := s.length
  if n = 0 then 0
  else if n % 2 = 1 then s.getD (n / 2) 0
  else (s.getD (n / 2 - 1) 0 + s.getD (n / 2) 0) / 2

/-! ## Column and table accessors -/

/-- Is a value missing? -/
def Value.isNull : Value → Bool
  | .null => true
  | _ => false

/-- Non-null values of a column (`Series.dropna`). -/
def Column.nonNull (c : Column) : List Value :=
  c.values.filter (fun v => !v.isNull)

/-- Distinct non-null value count (`Series.nunique`). -/
def Column.nunique (c : Column) : ℕ :=
  (dedupFirst c.nonNull).length

/-- Numeric values of a column, nulls dropped. -/
def Column.numVals (c : Column) : List ℚ :=
  c.values.filterMap (fun v => match v with | .num q => some q | _ => none)

/-- Number of columns. -/
def Table.nCols (t : Table) : ℕ := t.cols.length

/-- Total number of missing cells (`df.isna().sum().sum()`). -/
def Table.missCount (t : Table) : ℕ :=
  (t.cols.map (fun c => (c.values.filter (fun v => v.isNull)).length)).sum

/-- Overall missing-value density; `0` when the table has no cells. -/
def Table.missingFrac (t : Table) : ℚ :=
  if 0 < t.nRows * t.nCols then (t.missCount : ℚ) / ((t.nRows * t.nCols : ℕ) : ℚ) else 0

/-- The rows of the table as lists of cells. -/
def Table.rows (t : Table) : List (List Value) :=
  (List.range t.nRows).map (fun i => t.cols.map (fun c => c.values.getD i Value.null))

/-- Number of duplicated rows (`df.duplicated().sum()`): rows minus distinct
rows; a zero-column frame has no duplicates, as in pandas. -/
def Table.dupCount (t : Table) : ℕ :=
  if t.cols.isEmpty then 0 else t.nRows - (dedupFirst t.rows).length

/-- Is the dtype numeric (`select_dtypes(include=[np.number])`)? -/
def Column.isNumeric (c : Column) : Bool :=
  decide (c.dtype = Dtype.intLike ∨ c.dtype = Dtype.floatLike)

/-- The numeric columns of the table, in order. -/
def Table.numericCols (t : Table) : List Column :=
  t.cols.filter Column.isNumeric

/-! ## Oracles for library-computed pieces -/

/-- Abstraction of the statistical / parsing library routines the source
calls; theorems quantify over these, so they hold for any library
behaviour.  Fields:
* `looksNumeric`: Python `float(s.replace(",", ""))` parse acceptance;
* `piiMatch`: whether a PII regex (named by its key in `PII_PATTERNS`)
  matches somewhere in a cell value;
* `toDatetime`: `pd.to_datetime(v, errors="coerce")` as days, `none` = `NaT`;
* `lowDiversity`: the normalized Shannon-entropy diversity test of the
  analytical layer for one categorical column;
* `vifs`: the `_vif` regression results (column name, VIF value);
* `hasSklearn`, `anomalyDensity`: availability and output of the
  IsolationForest anomaly fit (`none` models a fitting failure). -/
structure Oracles where
  looksNumeric : String → Bool
  piiMatch : String → Value → Bool
  toDatetime : Value → Option ℚ
  lowDiversity : Column → Bool
  vifs : Table → List (String × ℚ)
  hasSklearn : Bool
  anomalyDensity : Table → Option ℚ

/-! ## Result types (`edet.models.scores`) -/

/-- `SensitivityLevel`. -/
inductive SensitivityLevel where
  | low : SensitivityLevel
  | moderate : SensitivityLevel
  | high : SensitivityLevel
  deriving DecidableEq

/-- `TrustTier`. -/
inductive TrustTier where
  | decisionReady : TrustTier
  | reviewRecommended : TrustTier
  | riskPresent : TrustTier
  | notTrustworthy : TrustTier
  deriving DecidableEq

/-- Structural risk flags, one constructor per f-string of the source. -/
inductive SFlag where
  | emptyColumns (n : ℕ) (shown : List String) (more : Bool) : SFlag
  | highMissing (frac : ℚ) : SFlag
  | moderateMissing (frac : ℚ) : SFlag
  | duplicateRows (n : ℕ) (pct : ℚ) : SFlag
  | constantColumn (name : String) : SFlag
  | nearConstant (name : String) (top : Value) : SFlag
  | highCorrelation (c1 c2 : String) : SFlag
  | typeIncons (name : String) : SFlag
  deriving DecidableEq

/-- Operational risk flags. -/
inductive OpFlag where
  | noTemporal : OpFlag
  | veryStale : OpFlag
  | maybeStale : OpFlag
  | moderateLag : OpFlag
  | timeGaps : OpFlag
  deriving DecidableEq

/-- Governance risk flags. -/
inductive GFlag where
  | noUniqueId : GFlag
  | sensitiveColumn (name : String) (reasons : List String) : GFlag
  deriving DecidableEq

/-- Logical business-rule violations. -/
inductive LViol where
  | negRevenue (c : String) : LViol
  | profitExceeds (pr rev : String) : LViol
  | negQty (c : String) : LViol
  | dupId (c : String) : LViol
  deriving DecidableEq

/-- `StructuralResult`. -/
structure StructuralResult where
  structural_integrity_score : ℚ
  structural_risk_flags : List SFlag
  redundant_feature_list : List String
  candidate_primary_keys : List String
  deriving DecidableEq

/-- `GovernanceResult`. -/
structure GovernanceResult where
  governance_risk_score : ℚ
  sensitivity_classification : SensitivityLevel
  sensitive_column_map : List (String × List String)
  risk_flags : List GFlag
  deriving DecidableEq

/-- `OperationalResult`. -/
structure OperationalResult where
  temporal_reliability_score : ℚ
  operational_risk_flags : List OpFlag
  has_temporal_column : Bool
  latest_update_lag_days : Option ℚ
  deriving DecidableEq

/-- `LogicalResult`. -/
structure LogicalResult where
  logical_integrity_score : ℚ
  violation_rate : ℚ
  violations_summary : List LViol
  deriving DecidableEq

/-- `AnalyticalResult`. -/
structure AnalyticalResult where
  analytics_utility_score : ℚ
  preparation_complexity_score : ℚ
  low_variance_columns : List String
  high_skew_columns : List String
  high_vif_columns : List String
  anomaly_density : Option ℚ
  deriving DecidableEq

/-- `TrustResult`: composite EDTI outcome. -/
structure TrustResult where
  edti_score : ℚ
  trust_tier : TrustTier
  component_scores : List (String × ℚ)
  risk_heatmap : List (String × ℚ)
  deriving DecidableEq

/-! ## Structural Reliability Layer (`edet.structural.evaluator`) -/

/-- Names of fully-null columns (`df[c].isna().all()`). -/
def emptyColsOf (t : Table) : List String :=
  (t.cols.filter (fun c => c.values.all (fun v => v.isNull))).map Column.name

/-- Dtypes eligible for the identifier-uniqueness / constant-column loop:
`dtype in ("object", "string", "int64", "int32") or "int" in str(dtype)`. -/
def Dtype.pkEligible : Dtype → Bool
  | Dtype.objectLike => true
  | Dtype.intLike => true
  | _ => false

/-- One step of the identifier / constant-column loop. -/
def pkConstStep (t : Table) (acc : List String × List String × List SFlag)
    (c : Column) : List String × List String × List SFlag :=
  if c.dtype.pkEligible then
    let pks :=
      if c.nunique = t.nRows ∧ 0 < t.nRows ∧ c.values.all (fun v => !v.isNull)
      then acc.1 ++ [c.name] else acc.1
    let redFl :=
      if c.nunique = 1 ∧ 1 < t.nRows
      then (acc.2.1 ++ [c.name], acc.2.2 ++ [SFlag.constantColumn c.name])
      else acc.2
    (pks, redFl)
  else acc

/-- The identifier / constant-column loop: accumulates candidate primary
keys, redundant constant columns, and "Constant column" flags, in column
order. -/
def pkConstFold (t : Table) : List String × List String × List SFlag :=
  t.cols.foldl (pkConstStep t) ([], [], [])

/-- Count of a value in a column (including nulls), and the modal value:
models `value_counts(dropna=False)` keeping the first-seen maximum. -/
def topFreq (c : Column) : ℕ × Value :=
  (dedupFirst c.values).foldl
    (fun best v =>
      let cnt := (c.values.filter (fun w => decide (w = v))).length
      if best.1 < cnt then (cnt, v) else best)
    (0, Value.null)

/-- One step of the near-constant loop. -/
def nearConstStep (t : Table) (acc : List String × List SFlag) (c : Column) :
    List String × List SFlag :=
  if c.name ∈ acc.1 then acc
  else if dedupFirst c.values ≠ []
      ∧ (0.95 : ℚ) ≤ ((topFreq c).1 : ℚ) / (t.nRows : ℚ) ∧ 10 < t.nRows
  then (acc.1 ++ [c.name], acc.2 ++ [SFlag.nearConstant c.name (topFreq c).2])
  else acc

/-- The near-constant loop: starting from the redundant list accumulated so
far, flags columns whose top value covers at least 95% of more than 10 rows. -/
def nearConstFold (t : Table) (red0 : List String) : List String × List SFlag :=
  t.cols.foldl (nearConstStep t) (red0, [])

/-- Rows where both columns are numeric (pandas pairwise-complete `corr`). -/
def pairData (c1 c2 : Column) : List (ℚ × ℚ) :=
  (c1.values.zip c2.values).filterMap
    (fun pr => match pr with
      | (Value.num x, Value.num y) => some (x, y)
      | _ => none)

/-- Whether the Pearson correlation magnitude of a numeric column pair
exceeds 0.95: given positive variances, `|corr| > 0.95` iff
`361 * var x * var y < 400 * cov^2` (the `(n-1)` denominators cancel);
pandas yields `NaN` (never `> 0.95`) when either variance vanishes. -/
def corrHigh (c1 c2 : Column) : Bool :=
  let l := pairData c1 c2
  let n : ℚ := l.length
  let sx := (l.map Prod.fst).sum
  let sy := (l.map Prod.snd).sum
  let sxx := (l.map (fun pr => pr.1 * pr.1)).sum
  let syy := (l.map (fun pr => pr.2 * pr.2)).sum
  let sxy := (l.map (fun pr => pr.1 * pr.2)).sum
  let vx := n * sxx - sx * sx
  let vy := n * syy - sy * sy
  let cv := n * sxy - sx * sy
  decide (0 < vx ∧ 0 < vy ∧ 361 * vx * vy < 400 * (cv * cv))

/-- Highly correlated numeric pairs `(i, j)` with `i < j`, in the nested
loop order of the source. -/
def corrPairsOf (t : Table) : List (String × String) :=
  let nc := t.numericCols
  nc.enum.flatMap
    (fun ic =>
      nc.enum.filterMap
        (fun jc =>
          if ic.1 < jc.1 ∧ corrHigh ic.2 jc.2 = true
          then some (ic.2.name, jc.2.name) else none))

/-- String rendering of a non-null cell (`astype(str)`). -/
def Value.asStr : Value → String
  | Value.str s => s
  | Value.num q => toString q
  | Value.null => ""

/-- Type-inconsistency flags for object columns where some but not all
non-null values parse as numeric. -/
def typeInconsFlagsOf (o : Oracles) (t : Table) : List SFlag :=
  (t.cols.filter (fun c => decide (c.dtype = Dtype.objectLike))).filterMap
    (fun c =>
      let nn := c.nonNull.map Value.asStr
      let k := (nn.filter o.looksNumeric).length
      if 0 < k ∧ k < nn.length then some (SFlag.typeIncons c.name) else none)

/-- The structural integrity score before clamping. -/
def structuralScore (mfrac : ℚ) (dupC nRows emptyLen nCols redLen : ℕ) : ℚ :=
  let s1 : ℚ :=
    if 0.5 < mfrac then 1 - 0.35
    else if 0.2 < mfrac then 1 - 0.2
    else if 0.05 < mfrac then 1 - 0.1
    else 1
  let s2 : ℚ :=
    if 0.1 < (dupC : ℚ) / ((max nRows 1 : ℕ) : ℚ) then s1 - 0.2
    else if 0 < dupC then s1 - 0.1
    else s1
  let s3 : ℚ :=
    if 0 < emptyLen then s2 - 0.1 * ((min emptyLen 3 : ℕ) : ℚ) else s2
  if (nCols : ℚ) * 0.3 < (redLen : ℚ) then s3 - 0.15 else s3

/-- The deduplicated redundant-feature list: constants, then near-constants,
then both members of each highly correlated pair. -/
def redundantOf (t : Table) : List String :=
  dedupFirst
    ((nearConstFold t (pkConstFold t).2.1).1
      ++ (corrPairsOf t).flatMap (fun pr => [pr.1, pr.2]))

/-- All structural risk flags in source order. -/
def structuralFlagsOf (o : Oracles) (t : Table) : List SFlag :=
  let e := emptyColsOf t
  (if e.length ≠ 0
   then [SFlag.emptyColumns e.length (e.take 5) (decide (5 < e.length))] else [])
  ++ (if 0.3 < t.missingFrac then [SFlag.highMissing t.missingFrac]
      else if 0.1 < t.missingFrac then [SFlag.moderateMissing t.missingFrac]
      else [])
  ++ (if 0 < t.dupCount
      then [SFlag.duplicateRows t.dupCount
              (if t.nRows ≠ 0 then (t.dupCount : ℚ) / (t.nRows : ℚ) else 0)]
      else [])
  ++ (pkConstFold t).2.2
  ++ (nearConstFold t (pkConstFold t).2.1).2
  ++ (corrPairsOf t).map (fun pr => SFlag.highCorrelation pr.1 pr.2)
  ++ typeInconsFlagsOf o t

/-- `evaluate_structural`. -/
def evaluateStructural (o : Oracles) (p : DatasetProfile) : StructuralResult :=
  let df := p.df
  StructuralResult.mk
    (round4 (clamp01 (structuralScore df.missingFrac df.dupCount df.nRows
      (emptyColsOf df).length df.nCols (redundantOf df).length)))
    (structuralFlagsOf o df)
    (redundantOf df)
    (pkConstFold df).1

/-! ## Governance & Sensitivity Layer (`edet.governance.evaluator`) -/

/-- The `SENSITIVE_NAME_PATTERNS` table (all are literal substrings). -/
def sensitiveNamePats : List String :=
  ["password", "passwd", "pwd", "secret", "token", "api_key",
   "ssn", "social", "tax_id", "nin", "dob", "birth_date",
   "salary", "income", "bank_account", "credit_card", "cvv",
   "email", "phone", "address", "name", "first_name", "last_name"]

/-- The keys of the `PII_PATTERNS` regex table, in order. -/
def piiNames : List String :=
  ["email", "ssn", "phone_us", "credit_card", "iban", "ip_address"]

/-- Does `needle` occur inside `hay`? (Python `needle in hay` /
`re.search` of a literal pattern.) -/
def containsSub (hay needle : String) : Bool :=
  1 < (hay.splitOn needle).length

/-- `_column_name_risk`: name-based risk reasons of a column. -/
def colNameReasons (col : String) : List String :=
  (sensitiveNamePats.filter (fun pat => containsSub col.toLower pat)).map
    (fun pat => "name:" ++ pat)

/-- `_detect_patterns_in_series` on a bounded sample of 1000 non-null
values, with the regex matching abstracted by the oracle. -/
def colPatternReasons (o : Oracles) (c : Column) : List String :=
  let sample := c.nonNull.take 1000
  piiNames.filter (fun nm => sample.any (fun v => o.piiMatch nm v))

/-- All risk reasons of a column: name-based, then (for text-typed
columns) pattern-based. -/
def colReasons (o : Oracles) (c : Column) : List String :=
  colNameReasons c.name
    ++ (if c.dtype = Dtype.objectLike then colPatternReasons o c else [])

/-- The sensitive-column map, in column order, reasons deduplicated
(`list(set(reasons))` as a set). -/
def sensitiveMap (o : Oracles) (t : Table) : List (String × List String) :=
  t.cols.filterMap
    (fun c =>
      let rs := colReasons o c
      if rs ≠ [] then some (c.name, dedupFirst rs) else none)

/-- The per-column risk weight from the reason strings
(substring tests exactly as in the source's `if`/`elif` chain). -/
def colRiskWeight (rs : List String) : ℚ :=
  if rs.any (fun r => containsSub r "password" || containsSub r "secret"
      || containsSub r "token") then 1
  else if rs.any (fun r => containsSub r "ssn" || containsSub r "credit_card"
      || containsSub r "salary") then 0.9
  else if rs.any (fun r => containsSub r "email" || containsSub r "phone") then 0.7
  else 0

/-- The running `max_risk` over all columns with any reason. -/
def maxRiskOf (o : Oracles) (t : Table) : ℚ :=
  t.cols.foldl
    (fun m c =>
      let rs := colReasons o c
      if rs ≠ [] then max m (colRiskWeight rs) else m)
    0

/-- `evaluate_governance`. -/
def evaluateGovernance (o : Oracles) (p : DatasetProfile) : GovernanceResult :=
  let df := p.df
  let smap := sensitiveMap o df
  let mrisk := maxRiskOf o df
  let uflags :=
    if 0 < df.nRows ∧ ¬ (df.cols.any (fun c => decide (c.nunique = df.nRows)) = true)
        ∧ 0 < df.nCols
    then [GFlag.noUniqueId] else []
  let k := smap.length
  let risk : ℚ :=
    if k ≠ 0 then min 1 (0.3 + 0.2 * (k : ℚ) + mrisk * 0.5) else 0.1
  let cls :=
    if 0.9 ≤ mrisk ∨ 5 ≤ k then SensitivityLevel.high
    else if 0.5 ≤ mrisk ∨ 2 ≤ k then SensitivityLevel.moderate
    else SensitivityLevel.low
  GovernanceResult.mk
    (round4 (min 1 risk))
    cls
    smap
    ((uflags ++ smap.map (fun pr => GFlag.sensitiveColumn pr.1 pr.2)).take 50)

/-! ## Operational & Temporal Stability Layer (`edet.operational.evaluator`) -/

/-- Does the string start with an ISO date `YYYY-MM-DD`?
(`str.match(r"^\d{4}-\d{2}-\d{2}")`). -/
def isoDateStart (s : String) : Bool :=
  match s.toList with
  | a :: b :: c :: d :: e :: f :: g :: h2 :: i :: j :: _ =>
      a.isDigit && b.isDigit && c.isDigit && d.isDigit && decide (e = '-')
        && f.isDigit && g.isDigit && decide (h2 = '-') && i.isDigit && j.isDigit
  | _ => false

/-- Does a column have a textual value starting with an ISO date? -/
def hasIsoStr (c : Column) : Bool :=
  c.values.any (fun v => match v with | Value.str s => isoDateStart s | _ => false)

/-- `_find_temporal_column`: the first column that is datetime-typed (its
non-null values, in days) or a text column with an ISO-looking value (the
values that `pd.to_datetime` can parse, via the oracle). -/
def findTemporal (o : Oracles) (t : Table) : Option (List ℚ) :=
  t.cols.findSome?
    (fun c =>
      if c.dtype = Dtype.datetimeLike then some c.numVals
      else if hasIsoStr c then some (c.values.filterMap o.toDatetime)
      else none)

/-- Staleness flags and score deduction from the lag in days. -/
def staleAdj (lag : ℚ) : List OpFlag × ℚ :=
  if 365 < lag then ([OpFlag.veryStale], 0.4)
  else if 90 < lag then ([OpFlag.maybeStale], 0.2)
  else if 30 < lag then ([OpFlag.moderateLag], 0.1)
  else ([], 0)

/-- Consecutive differences of a sorted timestamp list (`ts.diff().dropna()`). -/
def diffsOf (s : List ℚ) : List ℚ :=
  List.zipWith (fun a b => a - b) s.tail s

/-- Number of consecutive gaps exceeding twice the median gap. -/
def gapCountOf (s : List ℚ) : ℕ :=
  (diffsOf s |>.filter (fun d => decide (2 * medianQ (diffsOf s) < d))).length

/-- `evaluate_operational`; `now` is the evaluation's current time in days
(`pd.Timestamp.now()`), an input the source reads from the wall clock. -/
def evaluateOperational (o : Oracles) (now : ℚ) (p : DatasetProfile) : OperationalResult :=
  match findTemporal o p.df with
  | none => OperationalResult.mk 0.5 [OpFlag.noTemporal] false none
  | some ts =>
    if ts.length = 0 then OperationalResult.mk 0.5 [OpFlag.noTemporal] false none
    else
      let s := sortQ ts
      let lag := now - s.getLastD 0
      let sa := staleAdj lag
      let doGaps := 2 ≤ ts.length ∧ 0 < (diffsOf s).length
        ∧ 0 < medianQ (diffsOf s) ∧ 0 < gapCountOf s
      let flags := sa.1 ++ (if doGaps then [OpFlag.timeGaps] else [])
      let score := 1 - sa.2
        - (if doGaps then min 0.2 (0.05 * ((min (gapCountOf s) 4 : ℕ) : ℚ)) else 0)
      OperationalResult.mk (round4 (clamp01 score)) flags true (some (round2 lag))

/-! ## Logical & Domain Consistency Layer (`edet.logical.evaluator`) -/

/-- `_col_like`: the lowercased name contains one of the pattern words. -/
def colLike (name : String) (pats : List String) : Bool :=
  pats.any (fun pat => containsSub name.toLower pat)

/-- Count of negative numeric values in a column (`(df[c] < 0).sum()`;
comparisons with missing values are false). -/
def negCountOf (c : Column) : ℕ :=
  (c.values.filter
    (fun v => match v with | Value.num q => decide (q < 0) | _ => false)).length

/-- Rows where the profit column exceeds the revenue column
(`(df[pr] > df[rev]).sum()`). -/
def profitExceedCount (pr rev : Column) : ℕ :=
  ((pr.values.zip rev.values).filter
    (fun ab => match ab with
      | (Value.num a, Value.num b) => decide (b < a)
      | _ => false)).length

/-- Does the column contain duplicate values (`df[c].duplicated().sum() > 0`,
nulls counting as equal)? -/
def hasDupVals (c : Column) : Bool :=
  decide ((dedupFirst c.values).length ≠ c.values.length)

/-- Revenue-like numeric columns. -/
def revColsOf (t : Table) : List Column :=
  t.cols.filter (fun c => colLike c.name ["revenue", "sales", "amount"] && c.isNumeric)

/-- Profit-like numeric columns. -/
def profitColsOf (t : Table) : List Column :=
  t.cols.filter (fun c => colLike c.name ["profit", "net_income"] && c.isNumeric)

/-- Quantity-like numeric columns. -/
def qtyColsOf (t : Table) : List Column :=
  t.cols.filter (fun c => colLike c.name ["qty", "quantity", "count"] && c.isNumeric)

/-- Identifier-like columns that are uniqueness-checked (object or integer
typed, nonzero distinct count). -/
def idCheckedOf (t : Table) : List Column :=
  (t.cols.filter
    (fun c => colLike c.name ["id", "transaction", "txn", "key"]
      && decide (0 < c.nunique))).filter
    (fun c => decide (c.dtype = Dtype.objectLike) || decide (c.dtype = Dtype.intLike))

/-- The (revenue, profit) pairs checked, revenue outer loop. -/
def profitPairsOf (t : Table) : List (Column × Column) :=
  (revColsOf t).flatMap
    (fun rc => (profitColsOf t).filterMap
      (fun pc => if rc.name ≠ pc.name then some (rc, pc) else none))

/-- The violations found, in the source's check order. -/
def logicalViols (t : Table) : List LViol :=
  (revColsOf t).filterMap
    (fun c => if 0 < negCountOf c then some (LViol.negRevenue c.name) else none)
  ++ (profitPairsOf t).filterMap
    (fun rp => if 0 < profitExceedCount rp.2 rp.1
      then some (LViol.profitExceeds rp.2.name rp.1.name) else none)
  ++ (qtyColsOf t).filterMap
    (fun c => if 0 < negCountOf c then some (LViol.negQty c.name) else none)
  ++ (idCheckedOf t).filterMap
    (fun c => if hasDupVals c then some (LViol.dupId c.name) else none)

/-- Total number of applied business-rule checks. -/
def logicalTotal (t : Table) : ℕ :=
  (revColsOf t).length + (profitPairsOf t).length
    + (qtyColsOf t).length + (idCheckedOf t).length

/-- All business-rule checks: total checks, passed checks, and violation
list in source order (each check either passes or records one violation). -/
def logicalChecks (t : Table) : ℕ × ℕ × List LViol :=
  (logicalTotal t, logicalTotal t - (logicalViols t).length, logicalViols t)

/-- `evaluate_logical`. -/
def evaluateLogical (p : DatasetProfile) : LogicalResult :=
  let tc := logicalChecks p.df
  let vr : ℚ := if tc.1 = 0 then 0 else 1 - (tc.2.1 : ℚ) / (tc.1 : ℚ)
  let integ : ℚ := if tc.1 = 0 then 0.85 else max 0 (1 - vr * 1.5)
  LogicalResult.mk (round4 (min 1 integ)) (round4 vr) (tc.2.2.take 30)

/-! ## Analytical Utility & Preparation Layer (`edet.analytical.evaluator`) -/

/-- Sample variance (pandas `Series.std(ddof=1)` squared); only meaningful
when the list has at least two entries. -/
def sampleVar (xs : List ℚ) : ℚ :=
  let n := xs.length
  let mu := xs.sum / (n : ℚ)
  (xs.map (fun x => (x - mu) * (x - mu))).sum / ((n : ℚ) - 1)

/-- Mean of the non-null values. -/
def meanOf (xs : List ℚ) : ℚ := xs.sum / (xs.length : ℚ)

/-- Maximum absolute value (`Series.abs().max()`), 0 on empty input. -/
def maxAbsOf (xs : List ℚ) : ℚ := (xs.map (fun x => |x|)).foldl max 0

/-- The low-variance test: `std == 0 or (std < 1e-10 and |x|max > 1e-10)`,
`elif std < mean * 0.01 and mean != 0`, with `std` the sample standard
deviation (NaN — hence false — on fewer than two values), expressed by
squaring both sides. -/
def lowVarCond (c : Column) : Bool :=
  let xs := c.numVals
  decide (
    (2 ≤ xs.length ∧ (sampleVar xs = 0
      ∨ (sampleVar xs < 1e-20 ∧ (1e-10 : ℚ) < maxAbsOf xs)))
    ∨ (2 ≤ xs.length ∧ 0 < meanOf xs
        ∧ 10000 * sampleVar xs < meanOf xs * meanOf xs))

/-- The high-skew test: `|skew| > 2` with `skew = m3 / m2^(3/2)` (biased
`scipy.stats.skew`), i.e. `m2 > 0 ∧ 4 * m2^3 < m3^2` over the non-null
values (skew is NaN — hence false — when `m2 = 0`). -/
def highSkewCond (c : Column) : Bool :=
  let xs := c.numVals
  let n : ℚ := xs.length
  let mu := xs.sum / n
  let m2 := (xs.map (fun x => (x - mu) * (x - mu))).sum / n
  let m3 := (xs.map (fun x => (x - mu) * (x - mu) * (x - mu))).sum / n
  decide (0 < m2 ∧ 4 * (m2 * m2 * m2) < m3 * m3)

/-- `evaluate_analytical`. -/
def evaluateAnalytical (o : Oracles) (p : DatasetProfile) : AnalyticalResult :=
  let df := p.df
  let numeric := df.numericCols
  if df.nRows = 0 ∨ numeric = [] then
    AnalyticalResult.mk 0.5 0.5 [] [] [] none
  else
    let lowVar := (numeric.filter lowVarCond).map Column.name
    let highSkew := (numeric.filter
      (fun c => !(lowVar.contains c.name) && highSkewCond c)).map Column.name
    let highVif := ((o.vifs df).filter (fun pr => decide ((10 : ℚ) < pr.2))).map Prod.fst
    let u1 : ℚ := if lowVar ≠ [] then 1 - 0.1 * ((min lowVar.length 5 : ℕ) : ℚ) else 1
    let u2 : ℚ := if highSkew ≠ [] then u1 - 0.05 * ((min highSkew.length 4 : ℕ) : ℚ) else u1
    let u3 : ℚ := if highVif ≠ [] then u2 - 0.1 * ((min highVif.length 3 : ℕ) : ℚ) else u2
    let objCols := df.cols.filter (fun c => decide (c.dtype = Dtype.objectLike))
    let prep : ℚ :=
      (if lowVar ≠ [] then 0.1 * (lowVar.length : ℚ) else 0)
      + (if highSkew ≠ [] then 0.05 * (highSkew.length : ℚ) else 0)
      + 0.05 * ((objCols.filter o.lowDiversity).length : ℚ)
      + (if highVif ≠ [] then 0.1 * (highVif.length : ℚ) else 0)
      + df.missingFrac * 0.5
    let anomaly :=
      if o.hasSklearn = true ∧ 10 < df.nRows ∧ 1 ≤ numeric.length
      then o.anomalyDensity df else none
    AnalyticalResult.mk
      (round4 (clamp01 u3)) (round4 (min 1 prep))
      lowVar highSkew highVif (anomaly.map round4)

/-! ## Strategic Trust Engine (`edet.trust_engine`) -/

/-- `compute_edti`: the composite EDTI, trust tier, component scores and
risk heatmap. -/
def computeEdti (s : StructuralResult) (g : GovernanceResult)
    (op : OperationalResult) (l : LogicalResult) (a : AnalyticalResult) : TrustResult :=
  let gTrust := max 0 (1 - g.governance_risk_score)
  let prepTrust := max 0 (1 - a.preparation_complexity_score)
  let edti := round4 (max 0 (min 1
    (0.22 * s.structural_integrity_score
      + 0.20 * gTrust
      + 0.18 * op.temporal_reliability_score
      + 0.18 * l.logical_integrity_score
      + 0.12 * a.analytics_utility_score
      + 0.10 * prepTrust)))
  let tier :=
    if 0.80 ≤ edti then TrustTier.decisionReady
    else if 0.60 ≤ edti then TrustTier.reviewRecommended
    else if 0.40 ≤ edti then TrustTier.riskPresent
    else TrustTier.notTrustworthy
  TrustResult.mk edti tier
    [("Structural Integrity", s.structural_integrity_score),
     ("Governance (1-risk)", gTrust),
     ("Temporal Stability", op.temporal_reliability_score),
     ("Logical Consistency", l.logical_integrity_score),
     ("Analytics Utility", a.analytics_utility_score),
     ("Preparation Readiness", prepTrust)]
    [("Structural", 1 - s.structural_integrity_score),
     ("Governance", g.governance_risk_score),
     ("Operational", 1 - op.temporal_reliability_score),
     ("Logical", 1 - l.logical_integrity_score),
     ("Analytical", 1 - a.analytics_utility_score),
     ("Preparation Burden", a.preparation_complexity_score)]

/-- `EvaluationBundle`: all layer outputs of one evaluation. -/
structure EvaluationBundle where
  structural : StructuralResult
  governance : GovernanceResult
  operational : OperationalResult
  logical : LogicalResult
  analytical : AnalyticalResult
  trust : Option TrustResult
  deriving DecidableEq

/-- `TrustEngine.evaluate`: run all layers and compute the EDTI. -/
def trustEvaluate (o : Oracles) (now : ℚ) (p : DatasetProfile) : EvaluationBundle :=
  let s := evaluateStructural o p
  let g := evaluateGovernance o p
  let op := evaluateOperational o now p
  let l := evaluateLogical p
  let a := evaluateAnalytical o p
  EvaluationBundle.mk s g op l a (some (computeEdti s g op l a))

/-! ## Concrete fixtures used by witnesses and counterexamples -/

/-- A trivial oracle assignment: no PII matches, no date parses, no VIFs,
no sklearn. -/
def oTriv : Oracles :=
  Oracles.mk (fun _ => false) (fun _ _ => false) (fun _ => none)
    (fun _ => false) (fun _ => []) false (fun _ => none)

/-- Placeholder ingestion metadata. -/
def meta0 : InputMetadata := InputMetadata.mk "csv" 0 0 [] false false 0 []

/-- Alternative metadata (differs from `meta0`). -/
def meta1 : InputMetadata := InputMetadata.mk "json" 9 9 [] true true 1 ["z"]

/-- Wrap a table into a profile with no working view. -/
def prof (t : Table) : DatasetProfile := DatasetProfile.mk t meta0 none

/-- A two-row datetime table (timestamps in days). -/
def pT : DatasetProfile :=
  prof (Table.mk 2 [Column.mk "ts" Dtype.datetimeLike [Value.num 0, Value.num 1]])

/-- A two-row constant float column. -/
def pF : DatasetProfile :=
  prof (Table.mk 2 [Column.mk "x" Dtype.floatLike [Value.num (3/2), Value.num (3/2)]])

/-- Timestamps `[0, 0, 0, 5]`: median consecutive gap is zero. -/
def pG : DatasetProfile :=
  prof (Table.mk 4 [Column.mk "ts" Dtype.datetimeLike
    [Value.num 0, Value.num 0, Value.num 0, Value.num 5]])

/-- Timestamps `[0, 1, 2, 10]`: positive median gap, one large gap. -/
def pH : DatasetProfile :=
  prof (Table.mk 4 [Column.mk "ts" Dtype.datetimeLike
    [Value.num 0, Value.num 1, Value.num 2, Value.num 10]])

/-- Three business-rule columns: a clean amount, a negative quantity, a
unique id, so 2 of 3 checks pass. -/
def pL : DatasetProfile :=
  prof (Table.mk 2
    [Column.mk "amount" Dtype.intLike [Value.num 1, Value.num 2],
     Column.mk "qty" Dtype.intLike [Value.num (-1), Value.num 2],
     Column.mk "id" Dtype.intLike [Value.num 1, Value.num 2]])

/-- The table of `pW`. -/
def tW : Table := Table.mk 2 [Column.mk "id" Dtype.intLike [Value.num 1, Value.num 2]]

/-- A small well-formed profile. -/
def pW : DatasetProfile := prof tW

/-- A profile with different raw table and metadata but the same effective
table as `pW`, via the working view. -/
def pWb : DatasetProfile := DatasetProfile.mk (Table.mk 0 []) meta1 (some tW)

/-- A zero-row table with a declared numeric column. -/
def pZ : DatasetProfile := prof (Table.mk 0 [Column.mk "x" Dtype.floatLike []])

/-- A two-row constant object column. -/
def pW2 : DatasetProfile :=
  prof (Table.mk 2 [Column.mk "c" Dtype.objectLike [Value.str "a", Value.str "a"]])

/-- A zero-row table with two declared columns. -/
def pE : DatasetProfile :=
  prof (Table.mk 0 [Column.mk "a" Dtype.objectLike [], Column.mk "b" Dtype.floatLike []])

/-! ## Helper lemmas: rounding and clamping -/

theorem rhe_nonneg {x : ℚ} (h : 0 ≤ x) : 0 ≤ rhe x := by
  have h0 : 0 ≤ ⌊x⌋ := Int.floor_nonneg.mpr h
  unfold rhe
  split_ifs <;> omega

theorem rhe_le_of_le {x : ℚ} {B : ℤ} (h : x ≤ (B : ℚ)) : rhe x ≤ B := by
  have h1 : ⌊x⌋ ≤ B := by
    have := Int.floor_le_floor h
    simpa using this
  have h2 : (⌊x⌋ : ℚ) ≤ x := Int.floor_le x
  unfold rhe
  split_ifs with hf1 hf2 hf3
  · exact h1
  · have hlt : (⌊x⌋ : ℚ) < (B : ℚ) := by
      have : (⌊x⌋ : ℚ) + 1/2 < x := by linarith [not_lt.mp hf1]
      linarith
    have : ⌊x⌋ < B := by exact_mod_cast hlt
    omega
  · exact h1
  · have heq : x - ⌊x⌋ = 1/2 := le_antisymm (not_lt.mp hf2) (not_lt.mp hf1)
    have hlt : (⌊x⌋ : ℚ) < (B : ℚ) := by linarith
    have : ⌊x⌋ < B := by exact_mod_cast hlt
    omega

theorem round4_nonneg {x : ℚ} (h : 0 ≤ x) : 0 ≤ round4 x := by
  unfold round4
  have : (0 : ℚ) ≤ (rhe (x * 10000) : ℚ) := by
    exact_mod_cast rhe_nonneg (by linarith)
  positivity

theorem round4_le_one {x : ℚ} (h : x ≤ 1) : round4 x ≤ 1 := by
  unfold round4
  have hb : rhe (x * 10000) ≤ (10000 : ℤ) := by
    apply rhe_le_of_le
    push_cast
    linarith
  have : (rhe (x * 10000) : ℚ) ≤ 10000 := by exact_mod_cast hb
  linarith

theorem clamp01_nonneg (x : ℚ) : 0 ≤ clamp01 x := le_max_left 0 _

theorem clamp01_le_one (x : ℚ) : clamp01 x ≤ 1 :=
  max_le zero_le_one (min_le_left 1 x)

theorem round4_clamp01_mem (x : ℚ) :
    0 ≤ round4 (clamp01 x) ∧ round4 (clamp01 x) ≤ 1 :=
  ⟨round4_nonneg (clamp01_nonneg x), round4_le_one (clamp01_le_one x)⟩

theorem clamp01_eq_self {x : ℚ} (h0 : 0 ≤ x) (h1 : x ≤ 1) : clamp01 x = x := by
  unfold clamp01
  rw [min_eq_right h1, max_eq_right h0]

theorem rhe_intCast (m : ℤ) : rhe (m : ℚ) = m := by
  unfold rhe
  rw [Int.floor_intCast]
  norm_num

theorem round4_div_10000 (m : ℤ) : round4 ((m : ℚ) / 10000) = (m : ℚ) / 10000 := by
  unfold round4
  have h : ((m : ℚ) / 10000) * 10000 = (m : ℚ) := by
    field_simp
  rw [h, rhe_intCast]

theorem round4_min_one_div (m : ℤ) :
    round4 (min 1 ((m : ℚ) / 10000)) = min 1 ((m : ℚ) / 10000) := by
  rcases le_total ((m : ℚ) / 10000) 1 with h | h
  · rw [min_eq_right h, round4_div_10000]
  · rw [min_eq_left h]
    have h1 : (1 : ℚ) = ((10000 : ℤ) : ℚ) / 10000 := by norm_num
    rw [h1, round4_div_10000]

/-! ## Claim C1 -/

/-- Claim C1: for every 5-tuple of layer results, `compute_edti` returns an
EDTI equal to `0.22 * structural + 0.20 * max 0 (1 - governance_risk)
+ 0.18 * temporal + 0.18 * logical + 0.12 * utility
+ 0.10 * max 0 (1 - preparation_complexity)`, clamped to `[0, 1]` and
rounded to 4 decimals. -/
theorem C1_edti_formula (s : StructuralResult) (g : GovernanceResult)
    (op : OperationalResult) (l : LogicalResult) (a : AnalyticalResult) :
    (computeEdti s g op l a).edti_score =
      round4 (clamp01
        (0.22 * s.structural_integrity_score
          + 0.20 * max 0 (1 - g.governance_risk_score)
          + 0.18 * op.temporal_reliability_score
          + 0.18 * l.logical_integrity_score
          + 0.12 * a.analytics_utility_score
          + 0.10 * max 0 (1 - a.preparation_complexity_score))) := rfl

/-! ## Claim C2 -/

/-- Claim C2: the trust tier produced by `compute_edti` is assigned from
the (clamped, rounded) EDTI with inclusive lower bounds: `≥ 0.80`
Decision-Ready, `[0.60, 0.80)` Review Recommended, `[0.40, 0.60)` Risk
Present, `< 0.40` Not Trustworthy; in particular the exact boundary values
0.80, 0.60 and 0.40 map to the higher tier. -/
theorem C2_tier_thresholds (s : StructuralResult) (g : GovernanceResult)
    (op : OperationalResult) (l : LogicalResult) (a : AnalyticalResult) :
    (0.80 ≤ (computeEdti s g op l a).edti_score →
      (computeEdti s g op l a).trust_tier = TrustTier.decisionReady)
    ∧ (0.60 ≤ (computeEdti s g op l a).edti_score
        ∧ (computeEdti s g op l a).edti_score < 0.80 →
      (computeEdti s g op l a).trust_tier = TrustTier.reviewRecommended)
    ∧ (0.40 ≤ (computeEdti s g op l a).edti_score
        ∧ (computeEdti s g op l a).edti_score < 0.60 →
      (computeEdti s g op l a).trust_tier = TrustTier.riskPresent)
    ∧ ((computeEdti s g op l a).edti_score < 0.40 →
      (computeEdti s g op l a).trust_tier = TrustTier.notTrustworthy) := by
  dsimp only [computeEdti]
  refine ⟨?_, ?_, ?_, ?_⟩
  · intro h
    rw [if_pos h]
  · rintro ⟨h1, h2⟩
    rw [if_neg (not_le.mpr h2), if_pos h1]
  · rintro ⟨h1, h2⟩
    rw [if_neg (not_le.mpr (lt_trans h2 (by norm_num))),
      if_neg (not_le.mpr h2), if_pos h1]
  · intro h
    rw [if_neg (not_le.mpr (lt_trans h (by norm_num))),
      if_neg (not_le.mpr (lt_trans h (by norm_num))),
      if_neg (not_le.mpr h)]

/-- Witness for C2: a 5-tuple of results whose EDTI is exactly 0.80 is
assigned the Decision-Ready tier. -/
theorem C2_tier_thresholds_w :
    (computeEdti (StructuralResult.mk 1 [] [] [])
      (GovernanceResult.mk 1 SensitivityLevel.low [] [])
      (OperationalResult.mk 1 [] false none)
      (LogicalResult.mk 1 0 [])
      (AnalyticalResult.mk 1 0 [] [] [] none)).trust_tier
      = TrustTier.decisionReady :=
  (C2_tier_thresholds (StructuralResult.mk 1 [] [] [])
    (GovernanceResult.mk 1 SensitivityLevel.low [] [])
    (OperationalResult.mk 1 [] false none)
    (LogicalResult.mk 1 0 [])
    (AnalyticalResult.mk 1 0 [] [] [] none)).1 (by with_unfolding_all decide)

/-! ## Claim C4 -/

/-- Claim C4 counterexample: the operational evaluator is not a function of
the profile alone — it also reads the current wall-clock time, so two
invocations on the same profile at different times (here lag 2 days versus
lag 400 days past the latest timestamp) return different result objects. -/
theorem C4_time_dependence_cex :
    evaluateOperational oTriv 2 pT ≠ evaluateOperational oTriv 400 pT := by
  with_unfolding_all decide

/-- Claim C4 (amended): every evaluator is a pure, deterministic function
of the profile's effective table — and, for the operational evaluator, of
the evaluation time: profiles with the same table (whatever their raw
table or metadata) yield identical result objects; nothing is mutated
(functions in this embedding are side-effect free by construction). -/
theorem C4_pure_functions_of_table (o : Oracles) (now : ℚ)
    (p1 p2 : DatasetProfile) (h : p1.df = p2.df) :
    evaluateStructural o p1 = evaluateStructural o p2
    ∧ evaluateGovernance o p1 = evaluateGovernance o p2
    ∧ evaluateOperational o now p1 = evaluateOperational o now p2
    ∧ evaluateLogical p1 = evaluateLogical p2
    ∧ evaluateAnalytical o p1 = evaluateAnalytical o p2 := by
  refine ⟨?_, ?_, ?_, ?_, ?_⟩
  · unfold evaluateStructural
    rw [h]
  · unfold evaluateGovernance
    rw [h]
  · unfold evaluateOperational
    rw [h]
  · unfold evaluateLogical
    rw [h]
  · unfold evaluateAnalytical
    rw [h]

/-- Witness for the amended C4: two profiles with different raw tables and
metadata but the same effective table give identical results everywhere. -/
theorem C4_pure_functions_of_table_w :
    evaluateStructural oTriv pW = evaluateStructural oTriv pWb
    ∧ evaluateGovernance oTriv pW = evaluateGovernance oTriv pWb
    ∧ evaluateOperational oTriv 0 pW = evaluateOperational oTriv 0 pWb
    ∧ evaluateLogical pW = evaluateLogical pWb
    ∧ evaluateAnalytical oTriv pW = evaluateAnalytical oTriv pWb :=
  C4_pure_functions_of_table oTriv 0 pW pWb rfl

/-! ## Claim C10 -/

/-- Claim C10: a profile whose table has zero rows makes the numeric
selection empty, so `evaluate_analytical` returns the same fixed default as
the no-numeric-columns case — utility 0.5, preparation 0.5, empty column
lists, anomaly density unset — even when numeric columns are declared. -/
theorem C10_zero_row_analytical_default (o : Oracles) (p : DatasetProfile)
    (h : p.df.nRows = 0) :
    evaluateAnalytical o p = AnalyticalResult.mk 0.5 0.5 [] [] [] none := by
  simp only [evaluateAnalytical]
  rw [if_pos (Or.inl h : p.df.nRows = 0 ∨ p.df.numericCols = [])]

/-- Witness for C10: a zero-row table with a declared numeric column. -/
theorem C10_zero_row_analytical_default_w :
    evaluateAnalytical oTriv pZ = AnalyticalResult.mk 0.5 0.5 [] [] [] none :=
  C10_zero_row_analytical_default oTriv pZ rfl

/-! ## Helper lemmas: folds and membership -/

theorem foldl_keep {γ δ : Type} (P : γ → Prop) (f : γ → δ → γ)
    (hf : ∀ acc d, P acc → P (f acc d)) :
    ∀ (l : List δ) (acc : γ), P acc → P (l.foldl f acc) := by
  intro l
  induction l with
  | nil => intro acc h; simpa using h
  | cons d ds ih =>
    intro acc h
    rw [List.foldl_cons]
    exact ih _ (hf _ _ h)

theorem dedupFirst_mem_aux {α : Type} [DecidableEq α] :
    ∀ (l acc : List α) (a : α),
      (a ∈ l.foldl (fun acc b => if b ∈ acc then acc else acc ++ [b]) acc)
        ↔ (a ∈ acc ∨ a ∈ l) := by
  intro l
  induction l with
  | nil => intro acc a; simp
  | cons d ds ih =>
    intro acc a
    rw [List.foldl_cons, ih]
    by_cases hd : d ∈ acc
    · rw [if_pos hd]
      constructor
      · rintro (h | h)
        · exact Or.inl h
        · exact Or.inr (List.mem_cons_of_mem d h)
      · rintro (h | h)
        · exact Or.inl h
        · rcases List.mem_cons.mp h with rfl | h
          · exact Or.inl hd
          · exact Or.inr h
    · rw [if_neg hd]
      simp only [List.mem_append, List.mem_singleton, List.mem_cons]
      tauto

theorem dedupFirst_mem {α : Type} [DecidableEq α] (l : List α) (a : α) :
    a ∈ dedupFirst l ↔ a ∈ l := by
  unfold dedupFirst
  rw [dedupFirst_mem_aux]
  simp

theorem pkConstStep_mem_pres (t : Table)
    (acc : List String × List String × List SFlag) (c : Column) {x : SFlag}
    {y : String} (hx : x ∈ acc.2.2) (hy : y ∈ acc.2.1) :
    x ∈ (pkConstStep t acc c).2.2 ∧ y ∈ (pkConstStep t acc c).2.1 := by
  unfold pkConstStep
  split_ifs <;> refine ⟨?_, ?_⟩ <;> (try simp only [List.mem_append]) <;> tauto

theorem pkConstFold_mem (t : Table) (c : Column) (hc : c ∈ t.cols)
    (he : c.dtype.pkEligible = true) (hu : c.nunique = 1) (hr : 1 < t.nRows) :
    SFlag.constantColumn c.name ∈ (pkConstFold t).2.2
    ∧ c.name ∈ (pkConstFold t).2.1 := by
  unfold pkConstFold
  have H : ∀ (l : List Column) (acc : List String × List String × List SFlag),
      c ∈ l →
      SFlag.constantColumn c.name ∈ (l.foldl (pkConstStep t) acc).2.2
      ∧ c.name ∈ (l.foldl (pkConstStep t) acc).2.1 := by
    intro l
    induction l with
    | nil => intro acc hmem; cases hmem
    | cons d ds ih =>
      intro acc hmem
      rw [List.foldl_cons]
      rcases List.mem_cons.mp hmem with heq | hm
      · subst heq
        have hstep : SFlag.constantColumn c.name ∈ (pkConstStep t acc c).2.2
            ∧ c.name ∈ (pkConstStep t acc c).2.1 := by
          unfold pkConstStep
          rw [if_pos he]
          dsimp only
          rw [if_pos ⟨hu, hr⟩]
          constructor <;> simp
        exact foldl_keep
          (fun a => SFlag.constantColumn c.name ∈ a.2.2 ∧ c.name ∈ a.2.1)
          (pkConstStep t)
          (fun a d hp => pkConstStep_mem_pres t a d hp.1 hp.2) ds _ hstep
      · exact ih (pkConstStep t acc d) hm
  exact H t.cols ([], [], []) hc

theorem nearConstStep_keep (t : Table) (acc : List String × List SFlag)
    (c : Column) {y : String} (hy : y ∈ acc.1) : y ∈ (nearConstStep t acc c).1 := by
  unfold nearConstStep
  split_ifs <;> (try simp only [List.mem_append]) <;> tauto

theorem nearConstFold_keep (t : Table) (red0 : List String) {y : String}
    (hy : y ∈ red0) : y ∈ (nearConstFold t red0).1 := by
  unfold nearConstFold
  exact foldl_keep (fun a => y ∈ a.1) (nearConstStep t)
    (fun a c h => nearConstStep_keep t a c h) t.cols (red0, []) hy

/-! ## Claim C5 -/

/-- Claim C5 counterexample: a two-row constant float column has exactly
one distinct value and row count above one, yet `evaluate_structural`
reports neither a constant-column flag nor a redundant-feature entry for
it, because the constant-column loop only inspects object/string/int
typed columns (and the near-constant fallback needs more than 10 rows). -/
theorem C5_float_constant_cex :
    Column.nunique (Column.mk "x" Dtype.floatLike [Value.num (3/2), Value.num (3/2)]) = 1
    ∧ 1 < pF.df.nRows
    ∧ SFlag.constantColumn "x" ∉ (evaluateStructural oTriv pF).structural_risk_flags
    ∧ "x" ∉ (evaluateStructural oTriv pF).redundant_feature_list := by
  with_unfolding_all decide

/-- Claim C5 (amended): in a table with row count above one, every column
of object/string or integer dtype with exactly one distinct non-null value
is reported both with a structural constant-column flag and in the
redundant-feature list. -/
theorem C5_constant_column_flagged (o : Oracles) (p : DatasetProfile)
    (c : Column) (hc : c ∈ p.df.cols)
    (hd : c.dtype = Dtype.objectLike ∨ c.dtype = Dtype.intLike)
    (hu : c.nunique = 1) (hr : 1 < p.df.nRows) :
    SFlag.constantColumn c.name ∈ (evaluateStructural o p).structural_risk_flags
    ∧ c.name ∈ (evaluateStructural o p).redundant_feature_list := by
  have he : c.dtype.pkEligible = true := by
    rcases hd with h | h <;> rw [h] <;> rfl
  obtain ⟨hf, hn⟩ := pkConstFold_mem p.df c hc he hu hr
  constructor
  · show SFlag.constantColumn c.name ∈ structuralFlagsOf o p.df
    unfold structuralFlagsOf
    simp only [List.mem_append]
    tauto
  · show c.name ∈ redundantOf p.df
    unfold redundantOf
    rw [dedupFirst_mem]
    exact List.mem_append_left _ (nearConstFold_keep p.df _ hn)

/-- Witness for the amended C5: a two-row constant object column is
flagged constant and listed redundant. -/
theorem C5_constant_column_flagged_w :
    SFlag.constantColumn "c" ∈ (evaluateStructural oTriv pW2).structural_risk_flags
    ∧ "c" ∈ (evaluateStructural oTriv pW2).redundant_feature_list :=
  C5_constant_column_flagged oTriv pW2
    (Column.mk "c" Dtype.objectLike [Value.str "a", Value.str "a"])
    (by with_unfolding_all decide) (Or.inl rfl)
    (by with_unfolding_all decide) (by with_unfolding_all decide)

/-! ## Helper lemmas: sorting and gaps -/

theorem insertSorted_length (x : ℚ) (l : List ℚ) :
    (insertSorted x l).length = l.length + 1 := by
  induction l with
  | nil => rfl
  | cons y ys ih =>
    unfold insertSorted
    split_ifs
    · simp
    · simp only [List.length_cons, ih]

theorem sortQ_cons (a : ℚ) (l : List ℚ) :
    sortQ (a :: l) = insertSorted a (sortQ l) := rfl

theorem sortQ_length (l : List ℚ) : (sortQ l).length = l.length := by
  induction l with
  | nil => rfl
  | cons a as ih =>
    rw [sortQ_cons, insertSorted_length, ih, List.length_cons]

theorem diffsOf_length (s : List ℚ) : (diffsOf s).length = s.length - 1 := by
  unfold diffsOf
  rw [List.length_zipWith, List.length_tail]
  omega

/-! ## Claim C6 -/

/-- Claim C6 counterexample: with detected timestamps `[0, 0, 0, 5]` the
median consecutive gap is 0, so even though one difference exceeds twice
the median (so the claimed gap count is positive), the code's
`median > 0` guard skips the whole gap check: no time-gap flag is appended
and no penalty is subtracted (score stays 1 instead of the claimed 0.95). -/
theorem C6_zero_median_cex :
    findTemporal oTriv pG.df = some [0, 0, 0, 5]
    ∧ 0 < gapCountOf (sortQ [0, 0, 0, 5])
    ∧ OpFlag.timeGaps ∉ (evaluateOperational oTriv 6 pG).operational_risk_flags
    ∧ (evaluateOperational oTriv 6 pG).temporal_reliability_score = 1 := by
  with_unfolding_all decide

/-- Claim C6 (amended): for every profile with a detected temporal column
of at least two timestamps, whenever the median of the consecutive sorted
differences is positive and the count of differences exceeding twice that
median is positive, `evaluate_operational` appends a time-gap flag and
subtracts `min 0.2 (0.05 * min gapCount 4)` from the temporal reliability
score (before final clamping and rounding). -/
theorem C6_gap_penalty (o : Oracles) (now : ℚ) (p : DatasetProfile)
    (ts : List ℚ) (hf : findTemporal o p.df = some ts) (h2 : 2 ≤ ts.length)
    (hmed : 0 < medianQ (diffsOf (sortQ ts)))
    (hgap : 0 < gapCountOf (sortQ ts)) :
    OpFlag.timeGaps ∈ (evaluateOperational o now p).operational_risk_flags
    ∧ (evaluateOperational o now p).temporal_reliability_score
      = round4 (clamp01 (1 - (staleAdj (now - (sortQ ts).getLastD 0)).2
          - min 0.2 (0.05 * ((min (gapCountOf (sortQ ts)) 4 : ℕ) : ℚ)))) := by
  have hlen0 : ¬ ts.length = 0 := by omega
  have hdlen : 0 < (diffsOf (sortQ ts)).length := by
    rw [diffsOf_length, sortQ_length]
    omega
  have hdo : 2 ≤ ts.length ∧ 0 < (diffsOf (sortQ ts)).length
      ∧ 0 < medianQ (diffsOf (sortQ ts)) ∧ 0 < gapCountOf (sortQ ts) :=
    ⟨h2, hdlen, hmed, hgap⟩
  unfold evaluateOperational
  rw [hf]
  dsimp only
  rw [if_neg hlen0]
  dsimp only
  rw [if_pos hdo, if_pos hdo]
  constructor
  · exact List.mem_append_right _ (List.mem_singleton.mpr rfl)
  · rfl

/-- Witness for the amended C6: timestamps `[0, 1, 2, 10]`, evaluated one
day after the latest one, get the time-gap flag and a 0.05 penalty. -/
theorem C6_gap_penalty_w :
    OpFlag.timeGaps ∈ (evaluateOperational oTriv 11 pH).operational_risk_flags
    ∧ (evaluateOperational oTriv 11 pH).temporal_reliability_score
      = round4 (clamp01 (1 - (staleAdj (11 - (sortQ [0, 1, 2, 10]).getLastD 0)).2
          - min 0.2 (0.05 * ((min (gapCountOf (sortQ [0, 1, 2, 10])) 4 : ℕ) : ℚ)))) :=
  C6_gap_penalty oTriv 11 pH [0, 1, 2, 10]
    (by with_unfolding_all decide) (by with_unfolding_all decide)
    (by with_unfolding_all decide) (by with_unfolding_all decide)

/-! ## Helper lemmas: governance risk values -/

theorem colRiskWeight_nonneg (rs : List String) : 0 ≤ colRiskWeight rs := by
  unfold colRiskWeight
  split_ifs <;> norm_num

theorem colRiskWeight_cases (rs : List String) :
    colRiskWeight rs = 0 ∨ colRiskWeight rs = 0.7
    ∨ colRiskWeight rs = 0.9 ∨ colRiskWeight rs = 1 := by
  unfold colRiskWeight
  split_ifs <;> tauto

theorem maxRiskOf_nonneg (o : Oracles) (t : Table) : 0 ≤ maxRiskOf o t := by
  unfold maxRiskOf
  refine foldl_keep (fun m => 0 ≤ m) _ (fun m c h => ?_) t.cols 0 le_rfl
  dsimp only
  split_ifs
  · exact le_max_of_le_left h
  · exact h

theorem maxRiskOf_cases (o : Oracles) (t : Table) :
    maxRiskOf o t = 0 ∨ maxRiskOf o t = 0.7
    ∨ maxRiskOf o t = 0.9 ∨ maxRiskOf o t = 1 := by
  unfold maxRiskOf
  refine foldl_keep (fun m => m = 0 ∨ m = 0.7 ∨ m = 0.9 ∨ m = 1) _
    (fun m c h => ?_) t.cols 0 (Or.inl rfl)
  dsimp only
  split_ifs
  · rcases max_choice m (colRiskWeight (colReasons o c)) with he | he <;> rw [he]
    · exact h
    · exact colRiskWeight_cases _
  · exact h

theorem round4_min_min (z : ℤ) (x : ℚ) (hx : x = (z : ℚ) / 10000) :
    round4 (min 1 (min 1 x)) = min 1 x := by
  rw [← min_assoc, min_self, hx, round4_min_one_div]

/-! ## Claim C7 -/

/-- Claim C7: the governance risk score is 0.1 when no sensitive columns
are found and `min 1 (0.3 + 0.2 * count + 0.5 * max_risk)` otherwise, and
the sensitivity classification is High when `max_risk ≥ 0.9` or
`count ≥ 5`, Moderate when `max_risk ≥ 0.5` or `count ≥ 2`, else Low. -/
theorem C7_governance_formula (o : Oracles) (p : DatasetProfile) :
    (evaluateGovernance o p).governance_risk_score
      = (if (sensitiveMap o p.df).length = 0 then 0.1
         else min 1 (0.3 + 0.2 * ((sensitiveMap o p.df).length : ℚ)
           + 0.5 * maxRiskOf o p.df))
    ∧ (evaluateGovernance o p).sensitivity_classification
      = (if 0.9 ≤ maxRiskOf o p.df ∨ 5 ≤ (sensitiveMap o p.df).length
         then SensitivityLevel.high
         else if 0.5 ≤ maxRiskOf o p.df ∨ 2 ≤ (sensitiveMap o p.df).length
         then SensitivityLevel.moderate
         else SensitivityLevel.low) := by
  constructor
  · dsimp only [evaluateGovernance]
    by_cases hk : (sensitiveMap o p.df).length = 0
    · rw [if_neg (not_not_intro hk), if_pos hk]
      with_unfolding_all decide
    · rw [if_pos hk, if_neg hk]
      have hcomm : 0.3 + 0.2 * ((sensitiveMap o p.df).length : ℚ)
            + maxRiskOf o p.df * 0.5
          = 0.3 + 0.2 * ((sensitiveMap o p.df).length : ℚ)
            + 0.5 * maxRiskOf o p.df := by ring
      rw [hcomm]
      have h10 : (10000 : ℚ) ≠ 0 := by norm_num
      rcases maxRiskOf_cases o p.df with h | h | h | h <;> rw [h]
      · exact round4_min_min (3000 + 2000 * ((sensitiveMap o p.df).length : ℤ)) _
          (by rw [eq_div_iff h10]; push_cast; ring)
      · exact round4_min_min (6500 + 2000 * ((sensitiveMap o p.df).length : ℤ)) _
          (by rw [eq_div_iff h10]; push_cast; ring)
      · exact round4_min_min (7500 + 2000 * ((sensitiveMap o p.df).length : ℤ)) _
          (by rw [eq_div_iff h10]; push_cast; ring)
      · exact round4_min_min (8000 + 2000 * ((sensitiveMap o p.df).length : ℤ)) _
          (by rw [eq_div_iff h10]; push_cast; ring)
  · dsimp only [evaluateGovernance]

/-! ## Claim C8 -/

theorem logicalChecks_viols_nil (t : Table) (h : logicalTotal t = 0) :
    logicalViols t = [] := by
  unfold logicalTotal at h
  have h1 : (revColsOf t).length = 0 := by omega
  have h2 : (profitPairsOf t).length = 0 := by omega
  have h3 : (qtyColsOf t).length = 0 := by omega
  have h4 : (idCheckedOf t).length = 0 := by omega
  unfold logicalViols
  rw [List.length_eq_zero.mp h1, List.length_eq_zero.mp h2,
    List.length_eq_zero.mp h3, List.length_eq_zero.mp h4]
  rfl

/-- Claim C8 counterexample: with checks (amount: pass, qty: fail, id:
pass) there are 3 checks and 2 passes, but the stored violation rate is
`round4 (1/3) = 0.3333`, not the exact `1 - passed/total = 1/3` the claim
states. -/
theorem C8_rounded_rate_cex :
    logicalChecks pL.df = (3, 2, [LViol.negQty "qty"])
    ∧ (evaluateLogical pL).violation_rate ≠ 1 - (2 : ℚ) / 3 := by
  with_unfolding_all decide

/-- Claim C8 (amended): with zero applicable business-rule checks,
`evaluate_logical` returns integrity exactly 0.85 and violation rate
exactly 0; otherwise the returned violation rate is `1 - passed/total`
rounded to 4 decimals, and the returned integrity is
`min 1 (max 0 (1 - 1.5 * (1 - passed/total)))` (computed from the
unrounded rate) rounded to 4 decimals. -/
theorem C8_logical_formula (p : DatasetProfile) :
    ((logicalChecks p.df).1 = 0 →
      evaluateLogical p = LogicalResult.mk 0.85 0 [])
    ∧ ((logicalChecks p.df).1 ≠ 0 →
      (evaluateLogical p).violation_rate
        = round4 (1 - ((logicalChecks p.df).2.1 : ℚ) / ((logicalChecks p.df).1 : ℚ))
      ∧ (evaluateLogical p).logical_integrity_score
        = round4 (min 1 (max 0 (1 - (1 - ((logicalChecks p.df).2.1 : ℚ)
            / ((logicalChecks p.df).1 : ℚ)) * 1.5)))) := by
  constructor
  · intro h0
    have hv : (logicalChecks p.df).2.2 = [] := logicalChecks_viols_nil p.df h0
    dsimp only [evaluateLogical]
    rw [hv]
    have e1 : round4 (min 1 (0.85 : ℚ)) = 0.85 := by with_unfolding_all decide
    have e2 : round4 (0 : ℚ) = 0 := by with_unfolding_all decide
    simp only [h0, eq_self_iff_true, if_true, List.take_nil, e1, e2]
  · intro hne
    dsimp only [evaluateLogical]
    constructor
    · rw [if_neg hne]
    · rw [if_neg hne, if_neg hne]

/-- Witness for the amended C8: the three-check profile with one failing
check, rates taken through the rounding. -/
theorem C8_logical_formula_w :
    (evaluateLogical pL).violation_rate
      = round4 (1 - ((logicalChecks pL.df).2.1 : ℚ) / ((logicalChecks pL.df).1 : ℚ))
    ∧ (evaluateLogical pL).logical_integrity_score
      = round4 (min 1 (max 0 (1 - (1 - ((logicalChecks pL.df).2.1 : ℚ)
          / ((logicalChecks pL.df).1 : ℚ)) * 1.5))) :=
  (C8_logical_formula pL).2 (by with_unfolding_all decide)

/-! ## Helper lemmas: zero-row tables -/

theorem foldl_fix {γ δ : Type} (f : γ → δ → γ) :
    ∀ (l : List δ), (∀ d ∈ l, ∀ acc, f acc d = acc) → ∀ acc, l.foldl f acc = acc := by
  intro l
  induction l with
  | nil => intro _ acc; rfl
  | cons d ds ih =>
    intro h acc
    rw [List.foldl_cons, h d (List.mem_cons_self d ds)]
    exact ih (fun x hx acc2 => h x (List.mem_cons_of_mem d hx) acc2) acc

theorem emptyColsOf_all (t : Table) (hv : ∀ c ∈ t.cols, c.values = []) :
    emptyColsOf t = t.cols.map Column.name := by
  unfold emptyColsOf
  congr 1
  apply List.filter_eq_self.mpr
  intro c hc
  rw [hv c hc]
  rfl

theorem missingFrac_zero_rows (t : Table) (h0 : t.nRows = 0) :
    t.missingFrac = 0 := by
  unfold Table.missingFrac
  rw [h0]
  norm_num

theorem dupCount_zero_rows (t : Table) (h0 : t.nRows = 0) : t.dupCount = 0 := by
  unfold Table.dupCount
  split_ifs
  · rfl
  · rw [h0]
    exact Nat.zero_sub _

theorem nunique_of_empty (c : Column) (h : c.values = []) : c.nunique = 0 := by
  unfold Column.nunique Column.nonNull
  rw [h]
  rfl

theorem pkConstFold_empty (t : Table) (h0 : t.nRows = 0)
    (hv : ∀ c ∈ t.cols, c.values = []) : pkConstFold t = ([], [], []) := by
  unfold pkConstFold
  refine foldl_fix (pkConstStep t) t.cols (fun d hd acc => ?_) ([], [], [])
  have hnu : d.nunique = 0 := nunique_of_empty d (hv d hd)
  simp [pkConstStep, h0, hnu]

theorem nearConstFold_empty_vals (t : Table) (red0 : List String)
    (hv : ∀ c ∈ t.cols, c.values = []) : nearConstFold t red0 = (red0, []) := by
  unfold nearConstFold
  refine foldl_fix (nearConstStep t) t.cols (fun d hd acc => ?_) (red0, [])
  have hdv : d.values = [] := hv d hd
  simp [nearConstStep, hdv, dedupFirst]

theorem mem_of_mem_enum {α : Type} {x : ℕ × α} {l : List α}
    (h : x ∈ l.enum) : x.2 ∈ l := by
  rw [List.enum_eq_zip_range] at h
  exact (List.of_mem_zip h).2

theorem corrHigh_left_empty (c1 c2 : Column) (h : c1.values = []) :
    corrHigh c1 c2 = false := by
  unfold corrHigh pairData
  rw [h]
  simp

theorem corrPairsOf_empty (t : Table) (hv : ∀ c ∈ t.cols, c.values = []) :
    corrPairsOf t = [] := by
  unfold corrPairsOf
  apply List.eq_nil_iff_forall_not_mem.mpr
  intro pr hpr
  rw [List.mem_flatMap] at hpr
  obtain ⟨ic, hic, hpr2⟩ := hpr
  rw [List.mem_filterMap] at hpr2
  obtain ⟨jc, hjc, hj⟩ := hpr2
  have hcm : ic.2 ∈ t.cols := (List.mem_filter.mp (mem_of_mem_enum hic)).1
  have hch : corrHigh ic.2 jc.2 = false := corrHigh_left_empty ic.2 jc.2 (hv ic.2 hcm)
  rw [hch] at hj
  simp at hj

theorem typeIncons_empty (o : Oracles) (t : Table)
    (hv : ∀ c ∈ t.cols, c.values = []) : typeInconsFlagsOf o t = [] := by
  unfold typeInconsFlagsOf
  apply List.filterMap_eq_nil_iff.mpr
  intro c hc
  have hcv : c.values = [] := hv c (List.mem_filter.mp hc).1
  simp [Column.nonNull, hcv]

theorem structuralScore_zero_rows (k nCols : ℕ) (hk : 0 < k) :
    round4 (clamp01 (structuralScore 0 0 0 k nCols 0))
      = 1 - 0.1 * ((min k 3 : ℕ) : ℚ) := by
  have h4 : ¬ ((nCols : ℚ) * 0.3 < ((0 : ℕ) : ℚ)) := by
    push_cast
    nlinarith [Nat.cast_nonneg (α := ℚ) nCols]
  have hs : structuralScore 0 0 0 k nCols 0 = 1 - 0.1 * ((min k 3 : ℕ) : ℚ) := by
    unfold structuralScore
    rw [if_neg h4]
    norm_num [hk]
  have hb1 : ((min k 3 : ℕ) : ℚ) ≤ 3 := by exact_mod_cast min_le_right k 3
  have hb0 : (0 : ℚ) ≤ ((min k 3 : ℕ) : ℚ) := by positivity
  have hz : (1 : ℚ) - 0.1 * ((min k 3 : ℕ) : ℚ)
      = (((10000 - 1000 * ((min k 3 : ℕ) : ℤ) : ℤ)) : ℚ) / 10000 := by
    rw [eq_div_iff (by norm_num : (10000 : ℚ) ≠ 0)]
    push_cast
    ring
  rw [hs, clamp01_eq_self (by linarith) (by linarith), hz, round4_div_10000]

/-! ## Claim C9 -/

/-- Claim C9: for a table with zero rows and at least one column,
`evaluate_structural` classifies every column as fully null, emits the
"Empty columns" flag, scores `1 - 0.1 * min k 3` for `k` columns, and
treats the missing-value density as 0. -/
theorem C9_zero_row_structural (o : Oracles) (p : DatasetProfile)
    (h0 : p.df.nRows = 0) (hne : p.df.cols ≠ [])
    (hv : ∀ c ∈ p.df.cols, c.values = []) :
    emptyColsOf p.df = p.df.cols.map Column.name
    ∧ SFlag.emptyColumns p.df.nCols ((p.df.cols.map Column.name).take 5)
        (decide (5 < p.df.nCols)) ∈ (evaluateStructural o p).structural_risk_flags
    ∧ (evaluateStructural o p).structural_integrity_score
      = 1 - 0.1 * ((min p.df.nCols 3 : ℕ) : ℚ)
    ∧ p.df.missingFrac = 0 := by
  have hec := emptyColsOf_all p.df hv
  have hmf := missingFrac_zero_rows p.df h0
  have hdc := dupCount_zero_rows p.df h0
  have hpk := pkConstFold_empty p.df h0 hv
  have hcp := corrPairsOf_empty p.df hv
  have hred : redundantOf p.df = [] := by
    unfold redundantOf
    rw [hpk]
    dsimp only
    rw [nearConstFold_empty_vals p.df [] hv, hcp]
    rfl
  have hk : 0 < p.df.nCols := List.length_pos.mpr hne
  have hel : (emptyColsOf p.df).length = p.df.nCols := by
    rw [hec, List.length_map]
    rfl
  refine ⟨hec, ?_, ?_, hmf⟩
  · show _ ∈ structuralFlagsOf o p.df
    unfold structuralFlagsOf
    dsimp only
    rw [hel, hec]
    rw [if_pos (by omega : p.df.nCols ≠ 0)]
    exact List.mem_append_left _ (List.mem_append_left _ (List.mem_append_left _
      (List.mem_append_left _ (List.mem_append_left _ (List.mem_append_left _
        (List.mem_singleton.mpr rfl))))))
  · show round4 (clamp01 (structuralScore p.df.missingFrac p.df.dupCount
        p.df.nRows (emptyColsOf p.df).length p.df.nCols
        (redundantOf p.df).length)) = _
    rw [hmf, hdc, h0, hred, hel]
    exact structuralScore_zero_rows p.df.nCols p.df.nCols hk

/-- Witness for C9: a zero-row table with two columns scores 0.8 and flags
both columns empty. -/
theorem C9_zero_row_structural_w :
    emptyColsOf pE.df = pE.df.cols.map Column.name
    ∧ SFlag.emptyColumns pE.df.nCols ((pE.df.cols.map Column.name).take 5)
        (decide (5 < pE.df.nCols)) ∈ (evaluateStructural oTriv pE).structural_risk_flags
    ∧ (evaluateStructural oTriv pE).structural_integrity_score
      = 1 - 0.1 * ((min pE.df.nCols 3 : ℕ) : ℚ)
    ∧ pE.df.missingFrac = 0 :=
  C9_zero_row_structural oTriv pE rfl (by with_unfolding_all decide)
    (by with_unfolding_all decide)

/-! ## Helper lemmas: per-layer score bounds -/

theorem missingFrac_nonneg (t : Table) : 0 ≤ t.missingFrac := by
  unfold Table.missingFrac
  split_ifs with h
  · apply div_nonneg (by positivity) (by positivity)
  · exact le_rfl

theorem structural_score_mem (o : Oracles) (p : DatasetProfile) :
    0 ≤ (evaluateStructural o p).structural_integrity_score
    ∧ (evaluateStructural o p).structural_integrity_score ≤ 1 :=
  round4_clamp01_mem _

theorem governance_score_mem (o : Oracles) (p : DatasetProfile) :
    0 ≤ (evaluateGovernance o p).governance_risk_score
    ∧ (evaluateGovernance o p).governance_risk_score ≤ 1 := by
  dsimp only [evaluateGovernance]
  constructor
  · apply round4_nonneg
    apply le_min (by norm_num)
    split_ifs with h
    · apply le_min (by norm_num)
      have h1 := maxRiskOf_nonneg o p.df
      have h2 : (0 : ℚ) ≤ ((sensitiveMap o p.df).length : ℚ) := by positivity
      linarith
    · norm_num
  · apply round4_le_one
    exact min_le_left _ _

theorem operational_score_mem (o : Oracles) (now : ℚ) (p : DatasetProfile) :
    0 ≤ (evaluateOperational o now p).temporal_reliability_score
    ∧ (evaluateOperational o now p).temporal_reliability_score ≤ 1 := by
  unfold evaluateOperational
  cases hft : findTemporal o p.df with
  | none =>
    dsimp only
    constructor <;> norm_num
  | some ts =>
    dsimp only
    split_ifs with h1 h2
    · constructor <;> norm_num
    · exact round4_clamp01_mem _
    · exact round4_clamp01_mem _

theorem logical_score_mem (p : DatasetProfile) :
    0 ≤ (evaluateLogical p).logical_integrity_score
    ∧ (evaluateLogical p).logical_integrity_score ≤ 1 := by
  dsimp only [evaluateLogical]
  constructor
  · apply round4_nonneg
    apply le_min (by norm_num)
    split_ifs
    · norm_num
    · exact le_max_left 0 _
  · apply round4_le_one
    exact min_le_left _ _

theorem ite_nonneg {c : Prop} [Decidable c] {a b : ℚ} (ha : 0 ≤ a)
    (hb : 0 ≤ b) : 0 ≤ if c then a else b := by
  split_ifs <;> assumption

theorem analytical_scores_mem (o : Oracles) (p : DatasetProfile) :
    (0 ≤ (evaluateAnalytical o p).analytics_utility_score
      ∧ (evaluateAnalytical o p).analytics_utility_score ≤ 1)
    ∧ (0 ≤ (evaluateAnalytical o p).preparation_complexity_score
      ∧ (evaluateAnalytical o p).preparation_complexity_score ≤ 1) := by
  dsimp only [evaluateAnalytical]
  by_cases h : p.df.nRows = 0 ∨ p.df.numericCols = []
  · rw [if_pos h]
    refine ⟨⟨?_, ?_⟩, ⟨?_, ?_⟩⟩ <;> norm_num
  · rw [if_neg h]
    refine ⟨round4_clamp01_mem _, ?_, ?_⟩
    · apply round4_nonneg
      apply le_min (by norm_num)
      have hm := missingFrac_nonneg p.df
      refine add_nonneg (add_nonneg (add_nonneg (add_nonneg ?_ ?_) ?_) ?_) ?_
      · exact ite_nonneg (by positivity) le_rfl
      · exact ite_nonneg (by positivity) le_rfl
      · positivity
      · exact ite_nonneg (by positivity) le_rfl
      · linarith
    · apply round4_le_one
      exact min_le_left _ _

theorem edti_score_mem (s : StructuralResult) (g : GovernanceResult)
    (op : OperationalResult) (l : LogicalResult) (a : AnalyticalResult) :
    0 ≤ (computeEdti s g op l a).edti_score
    ∧ (computeEdti s g op l a).edti_score ≤ 1 :=
  round4_clamp01_mem _

/-! ## Claim C3 -/

/-- Claim C3: for every well-formed profile (and any library oracle
behaviour and evaluation time), each of the seven produced scores —
structural integrity, governance risk, temporal reliability, logical
integrity, analytics utility, preparation complexity, and the EDTI — lies
in the interval `[0, 1]`. -/
theorem C3_scores_unit_interval (o : Oracles) (now : ℚ) (p : DatasetProfile)
    (hwf : p.df.WF) :
    (0 ≤ (evaluateStructural o p).structural_integrity_score
      ∧ (evaluateStructural o p).structural_integrity_score ≤ 1)
    ∧ (0 ≤ (evaluateGovernance o p).governance_risk_score
      ∧ (evaluateGovernance o p).governance_risk_score ≤ 1)
    ∧ (0 ≤ (evaluateOperational o now p).temporal_reliability_score
      ∧ (evaluateOperational o now p).temporal_reliability_score ≤ 1)
    ∧ (0 ≤ (evaluateLogical p).logical_integrity_score
      ∧ (evaluateLogical p).logical_integrity_score ≤ 1)
    ∧ (0 ≤ (evaluateAnalytical o p).analytics_utility_score
      ∧ (evaluateAnalytical o p).analytics_utility_score ≤ 1)
    ∧ (0 ≤ (evaluateAnalytical o p).preparation_complexity_score
      ∧ (evaluateAnalytical o p).preparation_complexity_score ≤ 1)
    ∧ (0 ≤ (computeEdti (evaluateStructural o p) (evaluateGovernance o p)
          (evaluateOperational o now p) (evaluateLogical p)
          (evaluateAnalytical o p)).edti_score
      ∧ (computeEdti (evaluateStructural o p) (evaluateGovernance o p)
          (evaluateOperational o now p) (evaluateLogical p)
          (evaluateAnalytical o p)).edti_score ≤ 1) :=
  ⟨structural_score_mem o p, governance_score_mem o p,
   operational_score_mem o now p, logical_score_mem p,
   (analytical_scores_mem o p).1, (analytical_scores_mem o p).2,
   edti_score_mem _ _ _ _ _⟩

/-- Witness for C3: all seven scores of the small well-formed profile `pW`
lie in the unit interval. -/
theorem C3_scores_unit_interval_w :
    (0 ≤ (evaluateStructural oTriv pW).structural_integrity_score
      ∧ (evaluateStructural oTriv pW).structural_integrity_score ≤ 1)
    ∧ (0 ≤ (evaluateGovernance oTriv pW).governance_risk_score
      ∧ (evaluateGovernance oTriv pW).governance_risk_score ≤ 1)
    ∧ (0 ≤ (evaluateOperational oTriv 0 pW).temporal_reliability_score
      ∧ (evaluateOperational oTriv 0 pW).temporal_reliability_score ≤ 1)
    ∧ (0 ≤ (evaluateLogical pW).logical_integrity_score
      ∧ (evaluateLogical pW).logical_integrity_score ≤ 1)
    ∧ (0 ≤ (evaluateAnalytical oTriv pW).analytics_utility_score
      ∧ (evaluateAnalytical oTriv pW).analytics_utility_score ≤ 1)
    ∧ (0 ≤ (evaluateAnalytical oTriv pW).preparation_complexity_score
      ∧ (evaluateAnalytical oTriv pW).preparation_complexity_score ≤ 1)
    ∧ (0 ≤ (computeEdti (evaluateStructural oTriv pW) (evaluateGovernance oTriv pW)
          (evaluateOperational oTriv 0 pW) (evaluateLogical pW)
          (evaluateAnalytical oTriv pW)).edti_score
      ∧ (computeEdti (evaluateStructural oTriv pW) (evaluateGovernance oTriv pW)
          (evaluateOperational oTriv 0 pW) (evaluateLogical pW)
          (evaluateAnalytical oTriv pW)).edti_score ≤ 1) :=
  C3_scores_unit_interval oTriv 0 pW (by with_unfolding_all decide)

end EDET
